import Mathlib

/-!
Verification of the interactive layer of the tech-pioneers website.

Shallow embedding of the source modules:
- `Carousel` namespace: src/js/modules/carousel.js (class Carousel)
- `Theme` namespace: src/js/modules/theme-switcher.js (class ThemeSwitcher)
- `Modal` namespace: src/js/modules/theme-switcher.js (class Modal)
- `Nav` namespace: src/js/modules/navigation.js (class Navigation, scroll spy)
- `Anim` namespace: src/js/modules/navigation.js (class AnimationController)

Modelling conventions: pixel quantities (pointer positions, track
translations, widths) are integers — the source uses JS numbers for
pixel arithmetic (additions, subtractions, one division) and only
their ordering matters for the verified properties; slide
indices are integers; DOM class markers and attributes are booleans and
option-valued strings.  Purely visual side effects (CSS class toggling
for animation, live-region text, timers that only remove a transient
CSS class) are either carried as plain state fields or, when they have
no effect on any later observable state, omitted with a note at the
corresponding definition.
-/

namespace Carousel

/-- State of one `Carousel` instance (constructor, carousel.js lines
19-58): the fields participating in the index and drag dynamics.
`viewportWidth` and `trackPadding` stand for the DOM geometry reads
performed by `updateCarousel` (`viewport.offsetWidth` and the computed
track padding), constant for a fixed layout.  The autoplay interval
handle is omitted: its tick only ever invokes `next` or `goToSlide 0`
(lines 366-383), both of which are in the operation language below. -/
structure State where
  currentIndex : Int
  totalSlides : Nat
  slidesToShow : Nat
  slidesToScroll : Nat
  infinite : Bool
  isDragging : Bool
  startPos : Int
  currentTranslate : Int
  prevTranslate : Int
  viewportWidth : Int
  trackPadding : Int
  deriving DecidableEq, Repr

/-- Source `getMaxIndex` (lines 359-361):
`Math.max(0, this.totalSlides - this.options.slidesToShow)`. -/
def getMaxIndex (c : State) : Int :=
  max 0 ((c.totalSlides : Int) - (c.slidesToShow : Int))

/-- Source `updateCarousel` (lines 296-327): recomputes the track
offset from the viewport geometry and stores it in both translate
fields.  The transition/transform style writes have no further effect
on the modelled state. -/
def updateCarousel (c : State) : State :=
  let gap : Int := 8
  let availableWidth : Int := c.viewportWidth - c.trackPadding
  let slideWidth : Int := availableWidth / (c.slidesToShow : Int)
  let offset : Int := -c.currentIndex * (slideWidth + gap)
  { c with prevTranslate := offset, currentTranslate := offset }

/-- Source `goToSlide` (lines 267-291): clamps the requested index into
`[0, maxIndex]` via `Math.max(0, Math.min(index, maxIndex))` and calls
`updateCarousel`.  The animating class, button state update and screen
reader announcement do not touch the modelled fields. -/
def goToSlide (c : State) (index : Int) : State :=
  let maxIndex := getMaxIndex c
  updateCarousel { c with currentIndex := max 0 (min index maxIndex) }

/-- Source `next` (lines 242-249). -/
def next (c : State) : State :=
  if c.currentIndex < getMaxIndex c then
    goToSlide c (c.currentIndex + (c.slidesToScroll : Int))
  else if c.infinite then
    goToSlide c 0
  else c

/-- Source `prev` (lines 254-260). -/
def prev (c : State) : State :=
  if 0 < c.currentIndex then
    goToSlide c (c.currentIndex - (c.slidesToScroll : Int))
  else if c.infinite then
    goToSlide c (getMaxIndex c)
  else c

/-- Source `dragStart` (lines 175-183): records the pointer position
and enters the dragging state (autoplay suspension not modelled). -/
def dragStart (c : State) (pos : Int) : State :=
  { c with isDragging := true, startPos := pos }

/-- Source `dragMove` (lines 188-199): while dragging, the live track
translation is the resting translation plus the pointer delta. -/
def dragMove (c : State) (pos : Int) : State :=
  if c.isDragging then
    { c with currentTranslate := c.prevTranslate + (pos - c.startPos) }
  else c

/-- Source `dragEnd` (lines 204-230): leaves the dragging state,
computes the net displacement `movedBy` and either advances, retreats
or snaps back, with a fixed 50px threshold. -/
def dragEnd (c : State) : State :=
  if c.isDragging then
    let c := { c with isDragging := false }
    let movedBy := c.currentTranslate - c.prevTranslate
    let threshold : Int := 50
    if movedBy < -threshold ∧ c.currentIndex < getMaxIndex c then
      next c
    else if threshold < movedBy ∧ 0 < c.currentIndex then
      prev c
    else
      goToSlide c c.currentIndex
  else c

/-- Operation language of claim C1: the externally invokable index
mutations `next()`, `prev()` and `goToSlide(i)`. -/
inductive Op where
  | next : Op
  | prev : Op
  | goTo : Int → Op
  deriving DecidableEq, Repr

def applyOp (c : State) : Op → State
  | .next => next c
  | .prev => prev c
  | .goTo i => goToSlide c i

def run (c : State) (ops : List Op) : State :=
  ops.foldl applyOp c

/-- Index invariant of the spec: `0 ≤ currentIndex ≤ max 0 (totalSlides
- slidesToShow)`. -/
def indexInBounds (c : State) : Prop :=
  0 ≤ c.currentIndex ∧ c.currentIndex ≤ getMaxIndex c

/-- DOM environment a `Carousel` is constructed against (constructor,
lines 19-25): which anchor elements the `querySelector` calls find, how
many `.carousel__slide` elements exist, the carousel variant class, and
the geometry the later DOM reads return.  The container element itself
exists (the constructor is called on it). -/
structure Dom where
  viewport : Bool
  track : Bool
  slideCount : Nat
  isFeatured : Bool
  windowWidth : Int
  viewportWidth : Int
  trackPadding : Int
  deriving DecidableEq, Repr

/-- Source `updateSlidesToShow` (lines 89-110): step function of
`window.innerWidth` against the breakpoints 1440/1024/768 and the
carousel variant. -/
def updateSlidesToShow (windowWidth : Int) (isFeatured : Bool) : Nat :=
  if 1440 ≤ windowWidth then (if isFeatured then 4 else 3)
  else if 1024 ≤ windowWidth then (if isFeatured then 4 else 2)
  else if 768 ≤ windowWidth then 2
  else 1

/-- State assembled by the constructor body before the `init` guard
(lines 28-52), for configuration options `optsShow`/`optsScroll`/
`infinite` (defaults 1/1/false). -/
def mkState (dom : Dom) (optsShow optsScroll : Nat) (infinite : Bool) : State :=
  { currentIndex := 0
    totalSlides := dom.slideCount
    slidesToShow := optsShow
    slidesToScroll := optsScroll
    infinite := infinite
    isDragging := false
    startPos := 0
    currentTranslate := 0
    prevTranslate := 0
    viewportWidth := dom.viewportWidth
    trackPadding := dom.trackPadding }

/-- Source constructor plus `init` (lines 19-84): `init` runs only when
the track was found and the slide list is nonempty (line 55).  `init`
calls `updateSlidesToShow` (forcing `slidesToScroll` to 1), installs
listeners, then calls `updateCarousel`, which reads
`this.viewport.offsetWidth` (line 305); if the viewport anchor was not
found this dereferences `null` and a TypeError propagates out of the
constructor. -/
def construct (dom : Dom) (optsShow optsScroll : Nat) (infinite : Bool) :
    Except String State :=
  let c0 := mkState dom optsShow optsScroll infinite
  if dom.track = true ∧ 0 < dom.slideCount then
    let c1 := { c0 with
                  slidesToShow := updateSlidesToShow dom.windowWidth dom.isFeatured
                  slidesToScroll := 1 }
    if dom.viewport = true then
      Except.ok (updateCarousel c1)
    else
      Except.error "TypeError: Cannot read properties of null (reading offsetWidth)"
  else
    Except.ok c0

end Carousel

/-- Concrete non-infinite carousel (6 slides, 3 shown) used by the
claim witnesses. -/
def cA : Carousel.State :=
  { currentIndex := 0
    totalSlides := 6
    slidesToShow := 3
    slidesToScroll := 1
    infinite := false
    isDragging := false
    startPos := 0
    currentTranslate := 0
    prevTranslate := 0
    viewportWidth := 600
    trackPadding := 16 }

/-- Concrete call sequence used by the C1 witness. -/
def opsA : List Carousel.Op :=
  [Carousel.Op.goTo 10, Carousel.Op.next, Carousel.Op.prev,
   Carousel.Op.goTo (-4), Carousel.Op.prev, Carousel.Op.next]

/-- Concrete mid-drag carousel (index 1 of maxIndex 3, displacement
-30px) used by the C7 witness. -/
def cB : Carousel.State :=
  { currentIndex := 1
    totalSlides := 6
    slidesToShow := 3
    slidesToScroll := 1
    infinite := false
    isDragging := true
    startPos := 200
    currentTranslate := -230
    prevTranslate := -200
    viewportWidth := 600
    trackPadding := 16 }

/-- Concrete mid-drag infinite carousel at `maxIndex` with a -100px
displacement, used by the C10 witness. -/
def cC : Carousel.State :=
  { currentIndex := 3
    totalSlides := 6
    slidesToShow := 3
    slidesToScroll := 1
    infinite := true
    isDragging := true
    startPos := 500
    currentTranslate := -100
    prevTranslate := 0
    viewportWidth := 600
    trackPadding := 16 }

/-- DOM with no viewport anchor but a track and three slides, used by
the C3 counterexample. -/
def domNoViewport : Carousel.Dom :=
  { viewport := false
    track := true
    slideCount := 3
    isFeatured := false
    windowWidth := 1200
    viewportWidth := 600
    trackPadding := 16 }

/-- DOM with no track anchor, used by the C3 witness. -/
def domNoTrack : Carousel.Dom :=
  { viewport := true
    track := false
    slideCount := 3
    isFeatured := false
    windowWidth := 1200
    viewportWidth := 600
    trackPadding := 16 }

/-- Complete DOM (all anchors present), used by the C3 witness. -/
def domFull : Carousel.Dom :=
  { viewport := true
    track := true
    slideCount := 6
    isFeatured := true
    windowWidth := 1500
    viewportWidth := 900
    trackPadding := 16 }

namespace Theme

/-- State touched by the `ThemeSwitcher` class (theme-switcher.js lines
12-31): the document-level `data-theme` attribute, the toggle control's
`aria-label`, the `localStorage` value under the fixed key
"techpioneers-theme", and whether storage operations succeed
(`storageOk = false` models the catch branches of lines 100-119).  The
theme button is assumed present (otherwise `init` never runs, line
28-30) and the icon animation (lines 169-192) has no state effect. -/
structure State where
  dataTheme : Option String
  ariaLabel : Option String
  stored : Option String
  storageOk : Bool
  deriving DecidableEq, Repr

/-- Source `savePreference` (lines 100-106): `localStorage.setItem`,
with failures caught and logged. -/
def savePreference (s : State) (theme : String) : State :=
  if s.storageOk then { s with stored := some theme } else s

/-- Source `loadPreference` (lines 112-119): `localStorage.getItem`,
with failures caught, logged and turned into `null`. -/
def loadPreference (s : State) : Option String :=
  if s.storageOk then s.stored else none

/-- Source `getCurrentTheme` (lines 92-94):
`getAttribute("data-theme") || "light"` (a missing attribute is `null`,
hence falsy). -/
def getCurrentTheme (s : State) : String :=
  s.dataTheme.getD "light"

/-- Source `setTheme` (lines 68-86): validates against the `themes`
enumeration (falling back to "light"), writes the `data-theme`
attribute and the button label, and persists the preference. -/
def setTheme (s : State) (theme : String) : State :=
  let theme := if theme = "light" ∨ theme = "dark" then theme else "light"
  let label :=
    if theme = "dark" then "Switch to light theme" else "Switch to dark theme"
  savePreference
    { s with dataTheme := some theme, ariaLabel := some label } theme

/-- Source `toggle` (lines 55-62). -/
def toggle (s : State) : State :=
  let currentTheme := getCurrentTheme s
  let newTheme := if currentTheme = "light" then "dark" else "light"
  setTheme s newTheme

/-- Source `getSystemPreference` (lines 125-133), with the OS
color-scheme query result passed as `osDark`. -/
def getSystemPreference (osDark : Bool) : String :=
  if osDark then "dark" else "light"

/-- JS `||` on a nullable string: `null` and the empty string are
falsy. -/
def jsOrElse (a : Option String) (b : String) : String :=
  match a with
  | some t => if t = "" then b else t
  | none => b

/-- Source `init` (lines 36-50): `savedTheme || systemTheme` is applied
via `setTheme`; the click and media-query listeners installed there are
modelled as the `toggle` and `osChange` transitions. -/
def init (s : State) (osDark : Bool) : State :=
  let savedTheme := loadPreference s
  let systemTheme := getSystemPreference osDark
  let initialTheme := jsOrElse savedTheme systemTheme
  setTheme s initialTheme

/-- JS truthiness test `!value` on a nullable string. -/
def isFalsy : Option String → Bool
  | none => true
  | some t => t = ""

/-- Source `watchSystemPreference` change handler (lines 138-164): on
an OS color-scheme change event (`e.matches` passed as `toDark`), the
theme is updated only when `!this.loadPreference()` holds. -/
def osChange (s : State) (toDark : Bool) : State :=
  if isFalsy (loadPreference s) then
    setTheme s (if toDark then "dark" else "light")
  else s

/-- Operations of the `ThemeSwitcher` once constructed: a direct
`setTheme` call, a user toggle, startup `init`, and an OS color-scheme
change event. -/
inductive Op where
  | setT : String → Op
  | tog : Op
  | start : Bool → Op
  | osc : Bool → Op
  deriving DecidableEq, Repr

def applyOp (s : State) : Op → State
  | .setT t => setTheme s t
  | .tog => toggle s
  | .start b => init s b
  | .osc m => osChange s m

/-- Enumeration invariant of claim C9: the applied theme is exactly
"light" or "dark". -/
def validApplied (s : State) : Prop :=
  s.dataTheme = some "light" ∨ s.dataTheme = some "dark"

end Theme

/-- Fresh browsing session: no `data-theme` attribute, nothing
persisted, storage available.  Used for claim C2. -/
def freshSession : Theme.State :=
  { dataTheme := none
    ariaLabel := none
    stored := none
    storageOk := true }

/-- State with a light theme applied but nothing persisted, used by the
C5 counterexample. -/
def themeNoStore : Theme.State :=
  { dataTheme := some "light"
    ariaLabel := none
    stored := none
    storageOk := true }

/-- Post-`setTheme` style state (applied and persisted values agree),
used by the C5 witness. -/
def themeSynced : Theme.State :=
  { dataTheme := some "dark"
    ariaLabel := some "Switch to light theme"
    stored := some "dark"
    storageOk := true }

/-- State whose persisted value is a corrupted string, used by the C9
witness. -/
def themeCorrupt : Theme.State :=
  { dataTheme := some "light"
    ariaLabel := none
    stored := some "purple"
    storageOk := true }

namespace Modal

/-- Record shape of the static `pioneersData` table entries
(theme-switcher.js lines 225-310). -/
structure Pioneer where
  name : String
  role : String
  image : String
  bio : String
  achievements : List String
  years : String
  deriving DecidableEq, Repr

/-- Source `pioneersData` (lines 225-310): the static lookup table,
keyed by pioneer id; `this.pioneersData[pioneerId]` yields `undefined`
(here `none`) for any other key.  The long free-text `bio` and
`achievements` strings are abbreviated to their opening phrases: only
the key set and the record shape bear on any verified property. -/
def pioneersData (pioneerId : String) : Option Pioneer :=
  if pioneerId = "katherine-johnson" then
    some { name := "Katherine Johnson"
           role := "NASA Mathematician"
           image := "/assets/images/katherine_johnson.svg"
           bio := "Katherine Johnson was an American mathematician"
           achievements :=
             ["Calculated trajectories for Project Mercury and Apollo 11 moon landing",
              "Received Presidential Medal of Freedom in 2015"]
           years := "1918 - 2020" }
  else if pioneerId = "claude-shannon" then
    some { name := "Claude Shannon"
           role := "Mathematician & Electrical Engineer"
           image := "/assets/images/claude_shannon.svg"
           bio := "Claude Shannon was an American mathematician, electrical engineer, and cryptographer"
           achievements :=
             ["Founded information theory and digital circuit design theory",
              "Developed sampling theorem fundamental to digital communications"]
           years := "1916 - 2001" }
  else if pioneerId = "radia-perlman" then
    some { name := "Radia Perlman"
           role := "Computer Scientist & Network Engineer"
           image := "/assets/images/radia_perlman.svg"
           bio := "Radia Perlman is an American computer scientist and network engineer"
           achievements :=
             ["Invented the Spanning Tree Protocol (STP) for network stability",
              "Holds over 100 patents in network technologies"]
           years := "1951 - Present" }
  else if pioneerId = "vint-cerf" then
    some { name := "Vint Cerf"
           role := "Computer Scientist & Internet Pioneer"
           image := "/assets/images/vint_cerf.svg"
           bio := "Vinton Gray Cerf is an American Internet pioneer"
           achievements :=
             ["Co-designed TCP/IP protocols that power the Internet",
              "Founding president of the Internet Society"]
           years := "1943 - Present" }
  else if pioneerId = "shafrira-goldwasser" then
    some { name := "Shafi Goldwasser"
           role := "Computer Scientist & Cryptographer"
           image := "/assets/images/shafrira_goldwasser.svg"
           bio := "Shafi Goldwasser is an Israeli-American computer scientist"
           achievements :=
             ["Received Turing Award (2012) for contributions to cryptography",
              "Co-inventor of zero-knowledge proofs"]
           years := "1958 - Present" }
  else if pioneerId = "donald-knuth" then
    some { name := "Donald Knuth"
           role := "Computer Scientist & Mathematician"
           image := "/assets/images/donald_knuth.svg"
           bio := "Donald Ervin Knuth is an American computer scientist and mathematician"
           achievements :=
             ["Created the TeX typesetting system and METAFONT font design system",
              "Received Turing Award (1974) and numerous other prestigious honors"]
           years := "1938 - Present" }
  else none

/-- Displayed state of the single modal instance (constructor, lines
209-222): the open flag, the content slots filled by `updateContent`
(lines 425-452), and the backdrop / body-scroll markers toggled by
`open`/`close`.  The avatar, title, subtitle and content DOM nodes are
assumed present (each `updateContent` write is guarded on the node
having been found); focus bookkeeping does not affect these fields. -/
structure State where
  isOpen : Bool
  avatarSrc : String
  avatarAlt : String
  title : String
  subtitle : String
  content : String
  backdropActive : Bool
  bodyScrollLocked : Bool
  deriving DecidableEq, Repr

/-- Source `updateContent` inner HTML template (lines 442-450). -/
def renderContent (d : Pioneer) : String :=
  "<h3 class=\"modal__section-title\">Biography</h3><p class=\"modal__text\">"
    ++ d.bio
    ++ "</p><h3 class=\"modal__section-title\">Key Achievements</h3><ul class=\"modal__list\">"
    ++ String.join (d.achievements.map
        (fun a => "<li class=\"modal__list-item\">" ++ a ++ "</li>"))
    ++ "</ul>"

/-- Source `updateContent` (lines 425-452). -/
def updateContent (st : State) (d : Pioneer) : State :=
  { st with
      avatarSrc := d.image
      avatarAlt := d.name
      title := d.name
      subtitle := d.role ++ " (" ++ d.years ++ ")"
      content := renderContent d }

/-- Source `open` (lines 371-401): a lookup miss warns (the returned
log line) and returns before any state or UI write; a hit updates the
content, reveals the backdrop, locks body scroll and sets `isOpen`. -/
def openModal (st : State) (pioneerId : String) : State × List String :=
  match pioneersData pioneerId with
  | none => (st, ["Pioneer data not found for ID: " ++ pioneerId])
  | some d =>
    let st := updateContent st d
    ({ st with backdropActive := true, bodyScrollLocked := true,
               isOpen := true }, [])

end Modal

/-- Closed modal showing previously displayed content, used by the C4
witness. -/
def modalShowingShannon : Modal.State :=
  { isOpen := false
    avatarSrc := "/assets/images/claude_shannon.svg"
    avatarAlt := "Claude Shannon"
    title := "Claude Shannon"
    subtitle := "Mathematician & Electrical Engineer (1916 - 2001)"
    content := "previous content"
    backdropActive := false
    bodyScrollLocked := false }

namespace Nav

/-- Registered scroll-spy section (navigation.js lines 172-186): the
target id and the `offsetTop` / `offsetHeight` geometry read on each
recomputation. -/
structure Section where
  id : String
  top : Int
  height : Int
  deriving DecidableEq, Repr

/-- Containment test of `updateActiveLink` (line 200):
`scrollPosition >= sectionTop && scrollPosition < sectionBottom`. -/
def sectionMatches (scrollPosition : Int) (s : Section) : Bool :=
  decide (s.top ≤ scrollPosition) && decide (scrollPosition < s.top + s.height)

/-- Source `updateActiveLink` section scan (lines 191-203):
`currentSection` starts `null` and is overwritten by every section
whose span contains `scrollY + 100`. -/
def updateActiveLink (scrollY : Int) (sections : List Section) : Option String :=
  let scrollPosition := scrollY + 100
  sections.foldl
    (fun currentSection s =>
      if sectionMatches scrollPosition s then some s.id else currentSection)
    none

/-- One navigation link (lines 24-30): its `href` attribute, which nav
surface it belongs to (desktop `.header__nav-link` versus mobile
`.header__mobile-nav-link`), and whether its surface-specific active
class is currently present. -/
structure NavLink where
  href : Option String
  isDesktop : Bool
  active : Bool
  deriving DecidableEq, Repr

/-- Template `#${currentSection}` (line 208): JS string interpolation
renders `null` as the literal text "null". -/
def navHash : Option String → String
  | some sid => "#" ++ sid
  | none => "#" ++ "null"

/-- Source `updateActiveLink` link pass (lines 206-220): the link whose
href equals the template string gains its surface's active class, every
other link loses both active classes. -/
def applyActive (links : List NavLink) (currentSection : Option String) :
    List NavLink :=
  links.map fun l =>
    if l.href = some (navHash currentSection) then { l with active := true }
    else { l with active := false }

/-- Characterization used by the amended claim C6: the id of the last
section in document order whose span contains the probe position. -/
def lastMatching (scrollY : Int) (sections : List Section) : Option String :=
  (sections.reverse.find? (sectionMatches (scrollY + 100))).map Section.id

/-- Number of links of one surface currently carrying an active
class. -/
def activeCount (links : List NavLink) (desk : Bool) : Nat :=
  (links.filter (fun l => l.isDesktop == desk && l.active)).length

end Nav

/-- Two overlapping sections both containing the probe position 100,
used by the C6 counterexample. -/
def overlapSections : List Nav.Section :=
  [{ id := "first", top := 0, height := 300 },
   { id := "second", top := 50, height := 300 }]

/-- Concrete nav links (one desktop, one mobile per target), used by
the C6 witness. -/
def demoLinks : List Nav.NavLink :=
  [{ href := some "#first", isDesktop := true, active := false },
   { href := some "#second", isDesktop := true, active := false },
   { href := some "#first", isDesktop := false, active := false },
   { href := some "#second", isDesktop := false, active := true }]

namespace Anim

/-- One animatable element (navigation.js lines 314-329): its
`animate-hidden` / `animate-visible` class markers, whether
`shouldSkipElement` (lines 375-400) excludes it, the
`data-animation-setup` idempotence flag, whether the intersection
observer is currently observing it, and whether it is in the
`animatedElements` set. -/
structure Elem where
  hidden : Bool
  visible : Bool
  skip : Bool
  isSetup : Bool
  observed : Bool
  animated : Bool
  deriving DecidableEq, Repr

/-- State of the `AnimationController` (constructor, lines 257-285)
together with the animatable elements of the document.  `observerInstalled`
models `this.observer !== null`; `watcherInstalled` records whether
`watchReducedMotionPreference` (lines 630-658) has registered the media
query listener. -/
structure Controller where
  prefersReducedMotion : Bool
  observerInstalled : Bool
  watcherInstalled : Bool
  elements : List Elem
  deriving DecidableEq, Repr

/-- Constructor state (lines 257-285): observer `null`, no listener
registered yet. -/
def mkController (reduced : Bool) (elems : List Elem) : Controller :=
  { prefersReducedMotion := reduced
    observerInstalled := false
    watcherInstalled := false
    elements := elems }

/-- Source `showAllElements` (lines 600-625): removes `animate-hidden`
from and adds `animate-visible` to every animatable element. -/
def showAllElements (c : Controller) : Controller :=
  { c with elements := c.elements.map (fun e => { e with hidden := false, visible := true }) }

/-- Source `setupElement` (lines 336-368): idempotent per element;
skipped elements are only flagged as set up; the rest gain the
`animate-hidden` marker and are observed (staggered group members reach
the same hidden/observed state through `setupStaggeredGroup`,
lines 406-423, so the group distinction is collapsed here). -/
def setupElement (e : Elem) : Elem :=
  if e.isSetup then e
  else if e.skip then { e with isSetup := true }
  else { e with hidden := true, isSetup := true, observed := true }

/-- Source `destroy` (lines 683-691): disconnects the observer and
clears the animated-elements set. -/
def destroy (c : Controller) : Controller :=
  { c with
      observerInstalled := false
      elements := c.elements.map (fun e => { e with observed := false, animated := false }) }

/-- Source `init` (lines 290-309): under reduced motion, show
everything and install nothing (early return — in particular the
preference watcher is never registered); otherwise create the observer,
set up all animatable elements and watch the preference. -/
def initController (c : Controller) : Controller :=
  if c.prefersReducedMotion then
    showAllElements c
  else
    { c with
        observerInstalled := true
        watcherInstalled := true
        elements := c.elements.map setupElement }

/-- Reveal step of `animateSingleElement` / `animateStaggeredGroup`
(lines 557-595) combined with the bookkeeping of `handleIntersection`
(lines 526-536): the hidden marker is removed, the steady visible
marker applied (the transient animation class collapses to its final
state), the element recorded as animated and unobserved. -/
def animateElem (e : Elem) : Elem :=
  { e with hidden := false, visible := true, animated := true,
           observed := false }

/-- Replace the element at one position, leaving the rest unchanged. -/
def modifyAt (i : Nat) (f : Elem → Elem) : List Elem → List Elem
  | [] => []
  | e :: es =>
    match i with
    | 0 => f e :: es
    | j + 1 => e :: modifyAt j f es

/-- Intersection guard of `handleIntersection` (line 528): an entry
animates its target only if it has not been animated yet; an observed
flag models that entries are only delivered for observed targets. -/
def maybeAnimate (e : Elem) : Elem :=
  if e.observed = true ∧ e.animated = false then animateElem e else e

/-- Source `handleIntersection` (lines 526-536) for an intersection
entry on element `i`: entries only arrive while an observer exists. -/
def handleIntersection (c : Controller) (i : Nat) : Controller :=
  if c.observerInstalled then
    { c with elements := modifyAt i maybeAnimate c.elements }
  else c

/-- Source `watchReducedMotionPreference` handler (lines 637-648): runs
only if the listener was registered; a change to reduced tears down and
reveals everything, a change away re-runs `init`. -/
def handleMediaChange (c : Controller) (m : Bool) : Controller :=
  if c.watcherInstalled then
    let c := { c with prefersReducedMotion := m }
    if m then showAllElements (destroy c) else initController c
  else c

/-- Events the controller can receive after initialization. -/
inductive Event where
  | media : Bool → Event
  | intersect : Nat → Event
  deriving DecidableEq, Repr

def step (c : Controller) : Event → Controller
  | .media m => handleMediaChange c m
  | .intersect i => handleIntersection c i

def runEvents (c : Controller) (evs : List Event) : Controller :=
  evs.foldl step c

/-- Reduced-motion session invariant for claim C8: no observer, no
preference watcher, and no element carrying the hidden marker. -/
def Inert (c : Controller) : Prop :=
  c.observerInstalled = false ∧ c.watcherInstalled = false
    ∧ ∀ e ∈ c.elements, e.hidden = false

end Anim

/-- Concrete animatable elements (one plain, one skipped that starts
with a stray hidden marker), used by the C8 witness. -/
def animElemsW : List Anim.Elem :=
  [{ hidden := false, visible := false, skip := false, isSetup := false,
     observed := false, animated := false },
   { hidden := true, visible := false, skip := true, isSetup := false,
     observed := false, animated := false }]

/-- Concrete post-initialization event sequence, used by the C8
witness. -/
def animEventsW : List Anim.Event :=
  [Anim.Event.media false, Anim.Event.intersect 0, Anim.Event.media true]

namespace Carousel

theorem zero_le_getMaxIndex (c : State) : 0 ≤ getMaxIndex c :=
  le_max_left _ _

theorem currentIndex_updateCarousel (c : State) :
    (updateCarousel c).currentIndex = c.currentIndex := rfl

theorem getMaxIndex_updateCarousel (c : State) :
    getMaxIndex (updateCarousel c) = getMaxIndex c := rfl

theorem currentIndex_goToSlide (c : State) (i : Int) :
    (goToSlide c i).currentIndex = max 0 (min i (getMaxIndex c)) := rfl

theorem getMaxIndex_goToSlide (c : State) (i : Int) :
    getMaxIndex (goToSlide c i) = getMaxIndex c := rfl

theorem indexInBounds_goToSlide (c : State) (i : Int) :
    indexInBounds (goToSlide c i) := by
  constructor
  · rw [currentIndex_goToSlide]
    exact le_max_left _ _
  · rw [currentIndex_goToSlide, getMaxIndex_goToSlide]
    exact max_le (zero_le_getMaxIndex c) (min_le_right _ _)

theorem indexInBounds_next (c : State) (h : indexInBounds c) :
    indexInBounds (next c) := by
  unfold next
  split
  · exact indexInBounds_goToSlide _ _
  · split
    · exact indexInBounds_goToSlide _ _
    · exact h

theorem indexInBounds_prev (c : State) (h : indexInBounds c) :
    indexInBounds (prev c) := by
  unfold prev
  split
  · exact indexInBounds_goToSlide _ _
  · split
    · exact indexInBounds_goToSlide _ _
    · exact h

theorem indexInBounds_applyOp (c : State) (op : Op) (h : indexInBounds c) :
    indexInBounds (applyOp c op) := by
  cases op with
  | next => exact indexInBounds_next c h
  | prev => exact indexInBounds_prev c h
  | goTo i => exact indexInBounds_goToSlide c i

theorem indexInBounds_run (c : State) (ops : List Op) (h : indexInBounds c) :
    indexInBounds (run c ops) := by
  induction ops generalizing c with
  | nil => exact h
  | cons op ops ih => exact ih (applyOp c op) (indexInBounds_applyOp c op h)

theorem currentIndex_next (c : State) :
    (next c).currentIndex =
      if c.currentIndex < getMaxIndex c then
        max 0 (min (c.currentIndex + (c.slidesToScroll : Int)) (getMaxIndex c))
      else if c.infinite then
        max 0 (min 0 (getMaxIndex c))
      else c.currentIndex := by
  unfold next
  split
  · exact currentIndex_goToSlide _ _
  · split
    · exact currentIndex_goToSlide _ _
    · rfl

theorem currentIndex_prev (c : State) :
    (prev c).currentIndex =
      if 0 < c.currentIndex then
        max 0 (min (c.currentIndex - (c.slidesToScroll : Int)) (getMaxIndex c))
      else if c.infinite then
        max 0 (min (getMaxIndex c) (getMaxIndex c))
      else c.currentIndex := by
  unfold prev
  split
  · exact currentIndex_goToSlide _ _
  · split
    · exact currentIndex_goToSlide _ _
    · rfl

theorem currentIndex_dragEnd (c : State) (hd : c.isDragging = true) :
    (dragEnd c).currentIndex =
      if c.currentTranslate - c.prevTranslate < -50
          ∧ c.currentIndex < getMaxIndex c then
        (next { c with isDragging := false }).currentIndex
      else if 50 < c.currentTranslate - c.prevTranslate
          ∧ 0 < c.currentIndex then
        (prev { c with isDragging := false }).currentIndex
      else
        max 0 (min c.currentIndex (getMaxIndex c)) := by
  unfold dragEnd
  rw [hd, if_pos rfl]
  dsimp only
  unfold getMaxIndex
  dsimp only
  split
  · rfl
  · split
    · rfl
    · exact currentIndex_goToSlide _ _

theorem currentIndex_dragEnd_eq (c : State) (hd : c.isDragging = true) :
    (dragEnd c).currentIndex =
      if c.currentTranslate - c.prevTranslate < -50
          ∧ c.currentIndex < getMaxIndex c then
        (if c.currentIndex < getMaxIndex c then
          max 0 (min (c.currentIndex + (c.slidesToScroll : Int)) (getMaxIndex c))
        else if c.infinite then
          max 0 (min 0 (getMaxIndex c))
        else c.currentIndex)
      else if 50 < c.currentTranslate - c.prevTranslate
          ∧ 0 < c.currentIndex then
        (if 0 < c.currentIndex then
          max 0 (min (c.currentIndex - (c.slidesToScroll : Int)) (getMaxIndex c))
        else if c.infinite then
          max 0 (min (getMaxIndex c) (getMaxIndex c))
        else c.currentIndex)
      else
        max 0 (min c.currentIndex (getMaxIndex c)) := by
  rw [currentIndex_dragEnd c hd]
  refine if_congr Iff.rfl ?_ (if_congr Iff.rfl ?_ rfl)
  · exact currentIndex_next _
  · exact currentIndex_prev _

end Carousel

/-- C1: for every carousel in non-infinite mode, after any sequence of
`next()`, `prev()` and `goToSlide(i)` calls with arbitrary integer
arguments starting from the constructed state (`currentIndex = 0`), the
invariant `0 ≤ currentIndex ≤ max 0 (totalSlides - slidesToShow)`
holds; in particular, with 6 slides and `slidesToShow = 3`,
`goToSlide 10` sets `currentIndex` to 3. -/
theorem carousel_index_invariant (c : Carousel.State) (ops : List Carousel.Op)
    (_hinf : c.infinite = false) (h0 : c.currentIndex = 0)
    (d : Carousel.State) (h6 : d.totalSlides = 6) (h3 : d.slidesToShow = 3) :
    Carousel.indexInBounds (Carousel.run c ops)
      ∧ (Carousel.goToSlide d 10).currentIndex = 3 := by
  constructor
  · exact Carousel.indexInBounds_run c ops
      ⟨by rw [h0], by rw [h0]; exact Carousel.zero_le_getMaxIndex c⟩
  · rw [Carousel.currentIndex_goToSlide]
    unfold Carousel.getMaxIndex
    rw [h6, h3]
    decide

/-- Witness for C1 at a concrete carousel (6 slides, 3 shown,
non-infinite) and a concrete call sequence. -/
theorem carousel_index_invariant_witness :
    (cA.infinite = false ∧ cA.currentIndex = 0
        ∧ cA.totalSlides = 6 ∧ cA.slidesToShow = 3)
      ∧ (Carousel.indexInBounds (Carousel.run cA opsA)
        ∧ (Carousel.goToSlide cA 10).currentIndex = 3) :=
  ⟨by decide,
   carousel_index_invariant cA opsA rfl rfl cA rfl rfl⟩

/-- C7: for every completed drag gesture (release while dragging, index
within bounds, scroll step 1 as `init` forces), a net displacement of
absolute value below the 50px threshold leaves the index unchanged
(snap back), and a displacement beyond the threshold commits to the
adjacent slide subject to the `[0, maxIndex]` bounds. -/
theorem carousel_drag_threshold (c : Carousel.State)
    (hd : c.isDragging = true) (hs : c.slidesToScroll = 1)
    (hlo : 0 ≤ c.currentIndex) (hhi : c.currentIndex ≤ Carousel.getMaxIndex c) :
    ((-50 : Int) < c.currentTranslate - c.prevTranslate
        ∧ c.currentTranslate - c.prevTranslate < 50 →
        (Carousel.dragEnd c).currentIndex = c.currentIndex)
      ∧ (c.currentTranslate - c.prevTranslate < -50 →
        (Carousel.dragEnd c).currentIndex
          = min (c.currentIndex + 1) (Carousel.getMaxIndex c))
      ∧ ((50 : Int) < c.currentTranslate - c.prevTranslate →
        (Carousel.dragEnd c).currentIndex
          = max (c.currentIndex - 1) 0) := by
  refine ⟨?_, ?_, ?_⟩
  · rintro ⟨h1, h2⟩
    rw [Carousel.currentIndex_dragEnd_eq c hd,
      if_neg (fun hx => absurd hx.1 (by linarith)),
      if_neg (fun hx => absurd hx.1 (by linarith))]
    omega
  · intro h1
    rw [Carousel.currentIndex_dragEnd_eq c hd]
    by_cases hci : c.currentIndex < Carousel.getMaxIndex c
    · rw [if_pos ⟨h1, hci⟩, if_pos hci, hs]
      omega
    · rw [if_neg (fun hx => absurd hx.2 hci),
        if_neg (fun hx => absurd hx.1 (by linarith))]
      omega
  · intro h1
    rw [Carousel.currentIndex_dragEnd_eq c hd,
      if_neg (fun hx => absurd hx.1 (by linarith))]
    by_cases hci : 0 < c.currentIndex
    · rw [if_pos ⟨h1, hci⟩, if_pos hci, hs]
      omega
    · rw [if_neg (fun hx => absurd hx.2 hci)]
      omega

/-- Witness for C7 at a concrete dragging carousel (index 1, maxIndex
3) with a -30px displacement: below threshold, so the index stays 1. -/
theorem carousel_drag_threshold_witness :
    (cB.isDragging = true ∧ cB.slidesToScroll = 1
        ∧ 0 ≤ cB.currentIndex ∧ cB.currentIndex ≤ Carousel.getMaxIndex cB
        ∧ (-50 : Int) < cB.currentTranslate - cB.prevTranslate
        ∧ cB.currentTranslate - cB.prevTranslate < 50)
      ∧ (Carousel.dragEnd cB).currentIndex = cB.currentIndex :=
  ⟨by decide,
   (carousel_drag_threshold cB rfl rfl (by decide) (by decide)).1
     ⟨by decide, by decide⟩⟩

/-- C10: a drag released beyond the threshold at a boundary snaps back
to that boundary and never wraps, regardless of the `infinite` option;
`next()` and `prev()`, by contrast, wrap between the bounds when
`infinite` is set. -/
theorem carousel_drag_no_wrap :
    (∀ c : Carousel.State, c.isDragging = true →
        c.currentIndex = Carousel.getMaxIndex c →
        c.currentTranslate - c.prevTranslate < -50 →
        (Carousel.dragEnd c).currentIndex = c.currentIndex)
      ∧ (∀ c : Carousel.State, c.isDragging = true →
        c.currentIndex = 0 →
        (50 : Int) < c.currentTranslate - c.prevTranslate →
        (Carousel.dragEnd c).currentIndex = 0)
      ∧ (∀ c : Carousel.State, c.infinite = true →
        c.currentIndex = Carousel.getMaxIndex c →
        (Carousel.next c).currentIndex = 0)
      ∧ (∀ c : Carousel.State, c.infinite = true →
        c.currentIndex = 0 →
        (Carousel.prev c).currentIndex = Carousel.getMaxIndex c) := by
  have hM : ∀ c : Carousel.State, 0 ≤ Carousel.getMaxIndex c :=
    Carousel.zero_le_getMaxIndex
  refine ⟨?_, ?_, ?_, ?_⟩
  · intro c hd hb h1
    rw [Carousel.currentIndex_dragEnd_eq c hd,
      if_neg (fun hx => absurd hx.2 (by omega)),
      if_neg (fun hx => absurd hx.1 (by linarith))]
    have := hM c
    omega
  · intro c hd hb h1
    rw [Carousel.currentIndex_dragEnd_eq c hd,
      if_neg (fun hx => absurd hx.1 (by linarith)),
      if_neg (fun hx => absurd hx.2 (by omega))]
    have := hM c
    omega
  · intro c hinf hb
    rw [Carousel.currentIndex_next, if_neg (by omega), if_pos hinf]
    have := hM c
    omega
  · intro c hinf hb
    rw [Carousel.currentIndex_prev, if_neg (by omega), if_pos hinf]
    have := hM c
    omega

/-- Witness for C10 at a concrete infinite carousel dragged -100px at
`maxIndex` 3: the drag snaps back to 3 while `next()` wraps to 0. -/
theorem carousel_drag_no_wrap_witness :
    (cC.isDragging = true ∧ cC.infinite = true
        ∧ cC.currentIndex = Carousel.getMaxIndex cC
        ∧ cC.currentTranslate - cC.prevTranslate < -50)
      ∧ (Carousel.dragEnd cC).currentIndex = cC.currentIndex
      ∧ (Carousel.next cC).currentIndex = 0 :=
  ⟨by decide,
   carousel_drag_no_wrap.1 cC rfl (by decide) (by decide),
   carousel_drag_no_wrap.2.2.1 cC rfl (by decide)⟩

/-- C3 counterexample: a carousel container whose track and slides are
present but whose viewport anchor is missing makes construction throw a
TypeError (from `updateCarousel` reading `viewport.offsetWidth` during
`init`), refuting that construction never throws when a required DOM
anchor is absent. -/
theorem carousel_construct_throws_cex :
    Carousel.construct domNoViewport 1 1 false
      = Except.error
          "TypeError: Cannot read properties of null (reading offsetWidth)" := rfl

/-- C3 amended: construction is an inert no-op (the guarded `init` is
skipped, nothing throws) whenever the track anchor is absent or the
slide list is empty; and whenever the viewport anchor is present,
construction succeeds without throwing.  Only the missing-viewport,
track-and-slides-present combination raises. -/
theorem carousel_construct_inert (dom : Carousel.Dom)
    (os osc : Nat) (inf : Bool)
    (h : dom.track = false ∨ dom.slideCount = 0)
    (dom2 : Carousel.Dom) (h2 : dom2.viewport = true) :
    Carousel.construct dom os osc inf
        = Except.ok (Carousel.mkState dom os osc inf)
      ∧ ∃ st, Carousel.construct dom2 os osc inf = Except.ok st := by
  constructor
  · unfold Carousel.construct
    rw [if_neg]
    rintro ⟨ht, hc⟩
    rcases h with h | h
    · rw [h] at ht
      exact Bool.false_ne_true ht
    · rw [h] at hc
      exact lt_irrefl 0 hc
  · unfold Carousel.construct
    by_cases hg : dom2.track = true ∧ 0 < dom2.slideCount
    · rw [if_pos hg, if_pos h2]
      exact ⟨_, rfl⟩
    · rw [if_neg hg]
      exact ⟨_, rfl⟩

/-- Witness for C3 amended: a trackless DOM constructs inert, a
complete DOM constructs successfully. -/
theorem carousel_construct_inert_witness :
    (domNoTrack.track = false ∧ domFull.viewport = true)
      ∧ (Carousel.construct domNoTrack 1 1 false
          = Except.ok (Carousel.mkState domNoTrack 1 1 false)
        ∧ ∃ st, Carousel.construct domFull 1 1 false = Except.ok st) :=
  ⟨by decide,
   carousel_construct_inert domNoTrack 1 1 false (Or.inl rfl) domFull rfl⟩

namespace Theme

theorem setTheme_eq (s : State) (t : String) :
    setTheme s t =
      let th := if t = "light" ∨ t = "dark" then t else "light"
      { dataTheme := some th
        ariaLabel := some (if th = "dark" then "Switch to light theme"
          else "Switch to dark theme")
        stored := if s.storageOk then some th else s.stored
        storageOk := s.storageOk } := by
  unfold setTheme savePreference
  dsimp only
  split <;> rfl

theorem validApplied_setTheme (s : State) (t : String) :
    validApplied (setTheme s t) := by
  rw [setTheme_eq]
  unfold validApplied
  dsimp only
  by_cases h : t = "light" ∨ t = "dark"
  · rw [if_pos h]
    rcases h with h | h
    · exact Or.inl (by rw [h])
    · exact Or.inr (by rw [h])
  · rw [if_neg h]
    exact Or.inl rfl

end Theme

/-- C2 (failing-input evaluation): in a fresh session with storage
available and no explicitly chosen preference, `init` under a light OS
scheme persists "light" (although the user never chose it), so a later
OS change to dark finds a stored value, takes the guarded-out branch of
the change handler, and leaves the applied theme "light" — the handler
comment says it should update when the user has not set a preference. -/
theorem theme_os_change_dead_after_init :
    (Theme.init freshSession false).stored = some "light"
      ∧ Theme.osChange (Theme.init freshSession false) true
          = Theme.init freshSession false
      ∧ (Theme.osChange (Theme.init freshSession false) true).dataTheme
          = some "light" := by
  decide

/-- C5 counterexample: with a light theme applied and nothing
persisted, toggling twice restores the applied theme but leaves
"light" persisted, not the original empty storage — refuting the claim
for the case where no value was persisted before the first toggle. -/
theorem theme_toggle_twice_cex :
    (Theme.toggle (Theme.toggle themeNoStore)).dataTheme
        = themeNoStore.dataTheme
      ∧ (Theme.toggle (Theme.toggle themeNoStore)).stored
          ≠ themeNoStore.stored := by
  decide

/-- C5 amended: from any state whose applied `data-theme` attribute is
"light" or "dark" and whose persisted value equals the applied theme
(the state every `setTheme`, and hence `init`, leaves behind with
storage available — and trivially maintained when storage writes fail),
toggling twice restores both the applied theme and the persisted value.
When nothing was persisted, the second toggle instead persists the
original applied theme. -/
theorem theme_toggle_twice_roundtrip (s : Theme.State) (t : String)
    (ht : s.dataTheme = some t) (hv : t = "light" ∨ t = "dark")
    (hp : s.stored = some t) :
    (Theme.toggle (Theme.toggle s)).dataTheme = s.dataTheme
      ∧ (Theme.toggle (Theme.toggle s)).stored = s.stored := by
  rcases Bool.eq_false_or_eq_true s.storageOk with hok | hok <;>
    rcases hv with h | h <;> subst h <;>
      simp [Theme.toggle, Theme.getCurrentTheme, Theme.setTheme_eq,
        ht, hp, hok]

/-- Witness for C5 amended at a post-`setTheme` state (dark applied and
persisted). -/
theorem theme_toggle_twice_roundtrip_witness :
    (themeSynced.dataTheme = some "dark"
        ∧ ("dark" = "light" ∨ "dark" = "dark")
        ∧ themeSynced.stored = some "dark")
      ∧ ((Theme.toggle (Theme.toggle themeSynced)).dataTheme
          = themeSynced.dataTheme
        ∧ (Theme.toggle (Theme.toggle themeSynced)).stored
            = themeSynced.stored) :=
  ⟨⟨rfl, Or.inr rfl, rfl⟩,
   theme_toggle_twice_roundtrip themeSynced "dark" rfl (Or.inr rfl) rfl⟩

/-- C9: every `ThemeSwitcher` operation (direct `setTheme`, `toggle`,
startup `init`, OS change event) leaves the applied theme in the
enumeration {"light", "dark"}; `setTheme` with any other value applies
and persists "light", and `init` reading a corrupted non-empty stored
string likewise applies and persists "light". -/
theorem theme_applied_enum (s : Theme.State) (op : Theme.Op)
    (t v : String) (b : Bool)
    (hs : Theme.validApplied s) (hbad1 : t ≠ "light") (hbad2 : t ≠ "dark")
    (hok : s.storageOk = true) (hsv : s.stored = some v)
    (hv1 : v ≠ "light") (hv2 : v ≠ "dark") (hv3 : v ≠ "") :
    Theme.validApplied (Theme.applyOp s op)
      ∧ (Theme.setTheme s t).dataTheme = some "light"
      ∧ (Theme.setTheme s t).stored = some "light"
      ∧ (Theme.init s b).dataTheme = some "light"
      ∧ (Theme.init s b).stored = some "light" := by
  refine ⟨?_, ?_, ?_, ?_, ?_⟩
  · cases op with
    | setT u => exact Theme.validApplied_setTheme s u
    | tog => exact Theme.validApplied_setTheme s _
    | start b2 => exact Theme.validApplied_setTheme s _
    | osc m =>
      show Theme.validApplied (Theme.osChange s m)
      unfold Theme.osChange
      split
      · exact Theme.validApplied_setTheme s _
      · exact hs
  · simp [Theme.setTheme_eq, hbad1, hbad2]
  · simp [Theme.setTheme_eq, hbad1, hbad2, hok]
  · simp [Theme.init, Theme.loadPreference, Theme.jsOrElse,
      Theme.getSystemPreference, hok, hsv, hv3, Theme.setTheme_eq, hv1, hv2]
  · simp [Theme.init, Theme.loadPreference, Theme.jsOrElse,
      Theme.getSystemPreference, hok, hsv, hv3, Theme.setTheme_eq, hv1, hv2]

/-- Witness for C9 at a state with a corrupted stored string "purple"
and the toggle operation. -/
theorem theme_applied_enum_witness :
    (Theme.validApplied themeCorrupt
        ∧ "purple" ≠ "light" ∧ "purple" ≠ "dark"
        ∧ themeCorrupt.storageOk = true
        ∧ themeCorrupt.stored = some "purple" ∧ "purple" ≠ "")
      ∧ (Theme.validApplied (Theme.applyOp themeCorrupt Theme.Op.tog)
        ∧ (Theme.setTheme themeCorrupt "purple").dataTheme = some "light"
        ∧ (Theme.setTheme themeCorrupt "purple").stored = some "light"
        ∧ (Theme.init themeCorrupt false).dataTheme = some "light"
        ∧ (Theme.init themeCorrupt false).stored = some "light") :=
  ⟨⟨Or.inl rfl, by decide, by decide, rfl, rfl, by decide⟩,
   theme_applied_enum themeCorrupt Theme.Op.tog "purple" "purple" false
     (Or.inl rfl) (by decide) (by decide) rfl rfl
     (by decide) (by decide) (by decide)⟩

/-- C4: opening the modal with an id absent from the static pioneer
table logs a warning and performs no state or UI change — `isOpen`,
title, subtitle, avatar and content all keep their prior values. -/
theorem modal_open_unknown_id (st : Modal.State) (pid : String)
    (h : Modal.pioneersData pid = none) :
    (Modal.openModal st pid).1 = st
      ∧ (Modal.openModal st pid).2
          = ["Pioneer data not found for ID: " ++ pid] := by
  unfold Modal.openModal
  rw [h]
  exact ⟨rfl, rfl⟩

/-- Witness for C4: opening with the unknown id "grace-hopper" leaves a
closed modal displaying earlier content untouched. -/
theorem modal_open_unknown_id_witness :
    Modal.pioneersData "grace-hopper" = none
      ∧ ((Modal.openModal modalShowingShannon "grace-hopper").1
          = modalShowingShannon
        ∧ (Modal.openModal modalShowingShannon "grace-hopper").2
            = ["Pioneer data not found for ID: " ++ "grace-hopper"]) :=
  ⟨by decide,
   modal_open_unknown_id modalShowingShannon "grace-hopper" (by decide)⟩

namespace Nav

theorem scan_eq_find_reverse (p : Section → Bool) (l : List Section)
    (init : Option String) :
    l.foldl (fun cur s => if p s then some s.id else cur) init
      = (l.reverse.find? p).elim init (fun s => some s.id) := by
  induction l generalizing init with
  | nil => rfl
  | cons x xs ih =>
    rw [List.foldl_cons, ih, List.reverse_cons, List.find?_append]
    cases h : xs.reverse.find? p with
    | some s => simp [h]
    | none =>
      cases hp : p x <;> simp [h, hp, List.find?]

theorem updateActiveLink_eq_lastMatching (scrollY : Int)
    (sections : List Section) :
    updateActiveLink scrollY sections = lastMatching scrollY sections := by
  unfold updateActiveLink lastMatching
  dsimp only
  rw [scan_eq_find_reverse]
  cases h : sections.reverse.find? (sectionMatches (scrollY + 100)) <;>
    simp [h]

theorem activeCount_applyActive (links : List NavLink) (cur : Option String)
    (desk : Bool) :
    activeCount (applyActive links cur) desk
      = (links.filter (fun l => l.isDesktop == desk
          && l.href == some (navHash cur))).length := by
  induction links with
  | nil => rfl
  | cons l ls ih =>
    simp only [applyActive, List.map_cons, activeCount] at ih ⊢
    by_cases h : l.href = some (navHash cur) <;>
      cases hd : l.isDesktop == desk <;>
        simp [h, hd, List.filter_cons, ih]

theorem filter_href_length_le_one (M : List NavLink) (t : String)
    (hnd : (M.map NavLink.href).Nodup) :
    (M.filter (fun l => l.href == some t)).length ≤ 1 := by
  induction M with
  | nil => simp
  | cons x xs ih =>
    rw [List.map_cons, List.nodup_cons] at hnd
    rw [List.filter_cons]
    cases hx : (x.href == some t)
    · simpa using ih hnd.2
    · have hxh : x.href = some t := eq_of_beq hx
      have hnil : xs.filter (fun l => l.href == some t) = [] := by
        rw [List.filter_eq_nil_iff]
        intro y hy hpy
        apply hnd.1
        rw [hxh, ← eq_of_beq hpy]
        exact List.mem_map_of_mem NavLink.href hy
      simp [hnil]

theorem activeCount_le_one (links : List NavLink) (cur : Option String)
    (desk : Bool)
    (hnd : ((links.filter (fun l => l.isDesktop == desk)).map
        NavLink.href).Nodup) :
    activeCount (applyActive links cur) desk ≤ 1 := by
  rw [activeCount_applyActive]
  have heq : links.filter (fun l => l.isDesktop == desk
        && l.href == some (navHash cur))
      = (links.filter (fun l => l.isDesktop == desk)).filter
          (fun l => l.href == some (navHash cur)) := by
    rw [List.filter_filter]
    exact List.filter_congr (fun a _ => Bool.and_comm _ _)
  rw [heq]
  exact filter_href_length_le_one _ _ hnd

end Nav

/-- C6 counterexample: with two registered sections whose spans overlap
at the probe position (scrollY 0, probe 100), the scan marks the second
section active, not the first — the `forEach` overwrites earlier
matches, so document-order-first loses. -/
theorem nav_scroll_spy_first_cex :
    Nav.updateActiveLink 0 overlapSections = some "second"
      ∧ Nav.updateActiveLink 0 overlapSections ≠ some "first" := by
  decide

/-- C6 amended: the scroll-spy recomputation marks active the LAST
registered section in document order whose vertical span contains
`scrollY + 100` (none if no span contains it), and — provided the links
of a nav surface carry pairwise distinct hrefs — at most one link per
surface ends up active. -/
theorem nav_scroll_spy_last_match (scrollY : Int)
    (sections : List Nav.Section) (links : List Nav.NavLink)
    (cur : Option String) (desk : Bool)
    (hnd : ((links.filter (fun l => l.isDesktop == desk)).map
        Nav.NavLink.href).Nodup) :
    Nav.updateActiveLink scrollY sections
        = Nav.lastMatching scrollY sections
      ∧ Nav.activeCount (Nav.applyActive links cur) desk ≤ 1 :=
  ⟨Nav.updateActiveLink_eq_lastMatching scrollY sections,
   Nav.activeCount_le_one links cur desk hnd⟩

/-- Witness for C6 amended on the concrete overlapping sections and a
two-surface link set. -/
theorem nav_scroll_spy_last_match_witness :
    ((demoLinks.filter (fun l => l.isDesktop == true)).map
        Nav.NavLink.href).Nodup
      ∧ (Nav.updateActiveLink 0 overlapSections
          = Nav.lastMatching 0 overlapSections
        ∧ Nav.activeCount
            (Nav.applyActive demoLinks (Nav.updateActiveLink 0 overlapSections))
            true ≤ 1) :=
  ⟨by decide,
   nav_scroll_spy_last_match 0 overlapSections demoLinks
     (Nav.updateActiveLink 0 overlapSections) true (by decide)⟩

namespace Anim

theorem initController_reduced (elems : List Elem) :
    initController (mkController true elems)
      = showAllElements (mkController true elems) := by
  unfold initController mkController
  rw [if_pos rfl]

theorem mem_showAllElements (c : Controller) (e : Elem)
    (he : e ∈ (showAllElements c).elements) :
    e.hidden = false ∧ e.visible = true := by
  unfold showAllElements at he
  dsimp only at he
  rcases List.mem_map.mp he with ⟨f, _, rfl⟩
  exact ⟨rfl, rfl⟩

theorem inert_step (c : Controller) (ev : Event) (h : Inert c) :
    Inert (step c ev) := by
  cases ev with
  | media m =>
    show Inert (handleMediaChange c m)
    unfold handleMediaChange
    rw [h.2.1]
    simpa using h
  | intersect i =>
    show Inert (handleIntersection c i)
    unfold handleIntersection
    rw [h.1]
    simpa using h

theorem inert_runEvents (c : Controller) (evs : List Event) (h : Inert c) :
    Inert (runEvents c evs) := by
  induction evs generalizing c with
  | nil => exact h
  | cons ev evs ih => exact ih (step c ev) (inert_step c ev h)

theorem inert_init_reduced (elems : List Elem) :
    Inert (initController (mkController true elems)) := by
  rw [initController_reduced]
  refine ⟨rfl, rfl, ?_⟩
  intro e he
  exact (mem_showAllElements _ e he).1

end Anim

/-- C8: when the OS reduced-motion preference is active at
`AnimationController` initialization, `init` immediately marks every
animatable element with the steady visible marker and clears any hidden
marker, installs no observation (the observer stays null and the
preference watcher is never registered), and across any subsequent
sequence of media-change and intersection events no element is ever
assigned the hidden-state marker. -/
theorem anim_reduced_motion_visible (elems : List Anim.Elem)
    (evs : List Anim.Event) :
    (∀ e ∈ (Anim.initController (Anim.mkController true elems)).elements,
        e.hidden = false ∧ e.visible = true)
      ∧ (Anim.initController
          (Anim.mkController true elems)).observerInstalled = false
      ∧ ∀ e ∈ (Anim.runEvents
            (Anim.initController (Anim.mkController true elems))
            evs).elements,
          e.hidden = false := by
  refine ⟨?_, (Anim.inert_init_reduced elems).1, ?_⟩
  · intro e he
    rw [Anim.initController_reduced] at he
    exact Anim.mem_showAllElements _ e he
  · intro e he
    exact (Anim.inert_runEvents _ evs (Anim.inert_init_reduced elems)).2.2 e he

/-- Witness for C8 at concrete elements and a concrete event sequence
(a media change back to animations, an intersection entry, a change to
reduced again). -/
theorem anim_reduced_motion_visible_witness :
    (∀ e ∈ (Anim.initController (Anim.mkController true animElemsW)).elements,
        e.hidden = false ∧ e.visible = true)
      ∧ (Anim.initController
          (Anim.mkController true animElemsW)).observerInstalled = false
      ∧ ∀ e ∈ (Anim.runEvents
            (Anim.initController (Anim.mkController true animElemsW))
            animEventsW).elements,
          e.hidden = false :=
  anim_reduced_motion_visible animElemsW animEventsW
